import Mathlib

/-
  Verification of `cognito-fetch` (src/lib/index.ts).

  The repository exports a single async function `cognitoFetch(target, options)`
  that resolves region/credentials from explicit options falling back to
  environment variables via JavaScript `||`, builds a fixed-template URL and a
  POST request descriptor with a JSON-serialized body, optionally hands the
  descriptor to the external `aws4.sign` capability, dispatches it via `fetch`,
  and returns `res.json()`.

  Shallow embedding choices:
  - A JavaScript `string | undefined` value is `Option String` (`none` is
    `undefined`); JS truthiness makes both `undefined` and `""` falsy.
  - `process.env` is an explicit `Env` record of the four variables read.
  - The body is a JSON value with a compact serialization modelling
    `JSON.stringify` (JS numbers are modelled as integers; no claim depends on
    numeric formatting).
  - The external signing capability (`aws4.sign`, which mutates the
    descriptor's headers in place) is an abstract function from descriptor and
    credentials to the list of headers it adds; the core appends them.
  - The external transport (`fetch` + `res.json()`) is an abstract function
    returning either an error or a response whose body deserialization is
    itself either an error or a JSON value; promise rejection is `Except.error`.
  - The `AbortController` signal attached to the descriptor is omitted: it is
    an opaque handle carrying no observable data and is never triggered by the
    core.
  - `cognitoFetch` returns an `Outcome` recording the URL and descriptor passed
    to the transport, the list of invocations of the signing capability (the
    descriptor and credentials each received), and the final result.
-/

namespace CognitoFetch

/-- A JavaScript `string | undefined` value; `none` is `undefined`. -/
abbrev JSStr := Option String

/-- JavaScript truthiness of a `string | undefined` value:
`undefined` and the empty string are falsy. -/
def truthy : JSStr → Bool
  | none => false
  | some s => s ≠ ""

/-- JavaScript logical-or on `string | undefined` values:
returns the first operand when it is truthy, the second otherwise. -/
def jsOr (a b : JSStr) : JSStr :=
  if truthy a then a else b

/-- Template-literal interpolation of a `string | undefined` value:
JavaScript renders `undefined` as the literal text "undefined". -/
def interp : JSStr → String
  | none => "undefined"
  | some s => s

/-- JSON values (the serializable structured data of `options.body`).
JS numbers are modelled as integers; no claim depends on numeric formatting. -/
inductive Json where
  | null
  | bool (b : Bool)
  | num (n : Int)
  | str (s : String)
  | arr (elems : List Json)
  | obj (fields : List (String × Json))
deriving Repr

/-- Escaping of a single character inside a JSON string literal,
as performed by `JSON.stringify`. -/
def escapeChar (c : Char) : String :=
  if c = '"' then "\\\""
  else if c = '\\' then "\\\\"
  else if c = '\n' then "\\n"
  else if c = '\r' then "\\r"
  else if c = '\t' then "\\t"
  else String.singleton c

/-- Escaping of a JSON string body. -/
def escapeString (s : String) : String :=
  String.join (s.data.map escapeChar)

/-- A JSON string literal: escaped body between double quotes. -/
def quote (s : String) : String :=
  "\"" ++ escapeString s ++ "\""

mutual

/-- Compact serialization of a JSON value, modelling `JSON.stringify`:
no inserted whitespace, comma-separated elements and fields. -/
def Json.stringify : Json → String
  | .null => "null"
  | .bool true => "true"
  | .bool false => "false"
  | .num n => toString n
  | .str s => quote s
  | .arr elems => "[" ++ stringifyElems elems ++ "]"
  | .obj fields => "\x7b" ++ stringifyFields fields ++ "\x7d"

/-- Comma-separated serialization of array elements. -/
def stringifyElems : List Json → String
  | [] => ""
  | [j] => Json.stringify j
  | j :: rest => Json.stringify j ++ "," ++ stringifyElems rest

/-- Comma-separated serialization of object fields as `"key":value`. -/
def stringifyFields : List (String × Json) → String
  | [] => ""
  | [(k, v)] => quote k ++ ":" ++ Json.stringify v
  | (k, v) :: rest => quote k ++ ":" ++ Json.stringify v ++ "," ++ stringifyFields rest

end

/-- The four environment variables read by `cognitoFetch` out of `process.env`;
each is a `string | undefined`. -/
structure Env where
  AWS_REGION : JSStr
  AWS_DEFAULT_REGION : JSStr
  AWS_ACCESS_KEY_ID : JSStr
  AWS_SECRET_ACCESS_KEY : JSStr
deriving Repr, DecidableEq

/-- The `CognitoFetchOptions` interface: optional region and credential
overrides, a required body, and an optional `signed` flag
(`none` is an absent field). -/
structure CognitoFetchOptions where
  region : JSStr := none
  accessKeyId : JSStr := none
  secretAccessKey : JSStr := none
  body : Json
  signed : Option Bool := none
deriving Repr

/-- `const region = options.region || AWS_REGION || AWS_DEFAULT_REGION;`
(JavaScript `||` is left-associative). -/
def resolveRegion (options : CognitoFetchOptions) (env : Env) : JSStr :=
  jsOr (jsOr options.region env.AWS_REGION) env.AWS_DEFAULT_REGION

/-- `const accessKeyId = options.accessKeyId || AWS_ACCESS_KEY_ID;` -/
def resolveAccessKeyId (options : CognitoFetchOptions) (env : Env) : JSStr :=
  jsOr options.accessKeyId env.AWS_ACCESS_KEY_ID

/-- `const secretAccessKey = options.secretAccessKey || AWS_SECRET_ACCESS_KEY;` -/
def resolveSecretAccessKey (options : CognitoFetchOptions) (env : Env) : JSStr :=
  jsOr options.secretAccessKey env.AWS_SECRET_ACCESS_KEY

/-- The URL template literal
`https://cognito-idp.$\x7bregion\x7d.amazonaws.com/` applied to the resolved
region. -/
def buildUrl (region : JSStr) : String :=
  "https://cognito-idp." ++ interp region ++ ".amazonaws.com/"

/-- The credential pair handed to the signing capability
(`aws4.sign(requestOptions, \x7b accessKeyId, secretAccessKey \x7d)`). -/
structure Credentials where
  accessKeyId : JSStr
  secretAccessKey : JSStr
deriving Repr, DecidableEq

/-- The request descriptor (`requestOptions` in the source): fixed service,
resolved region, fixed method POST, URL, header list, serialized body.
The `signal` field (an opaque never-triggered AbortController handle) is
omitted. -/
structure RequestOptions where
  service : String
  region : JSStr
  method : String
  url : String
  headers : List (String × String)
  body : String
deriving Repr, DecidableEq

/-- The descriptor as built by `cognitoFetch` before any signing:
the object literal at lines 37 to 48 of src/lib/index.ts. -/
def buildRequest (target : String) (region : JSStr) (body : Json) : RequestOptions :=
  { service := "cognito-idp"
    region := region
    method := "POST"
    url := buildUrl region
    headers := [("x-amz-target", target), ("content-type", "application/x-amz-json-1.1")]
    body := Json.stringify body }

/-- The external signing capability: from the descriptor and credentials to the
headers it adds (`aws4.sign` mutates the descriptor's headers in place,
adding authorization-related headers). -/
abbrev Signer := RequestOptions → Credentials → List (String × String)

/-- A transport response: an HTTP status and the outcome of `res.json()`
(which may itself reject with a deserialization error). -/
structure Response (ε : Type) where
  status : Nat
  jsonBody : Except ε Json

/-- The external transport capability `fetch(url, requestOptions)`:
either rejects with an error or resolves to a response. -/
abbrev Transport (ε : Type) := String → RequestOptions → Except ε (Response ε)

/-- Everything observable about one `cognitoFetch` call: the URL and descriptor
passed to the transport, the invocations of the signing capability (each with
the descriptor and credentials it received), and the returned/rejected
result. -/
structure Outcome (ε : Type) where
  sentUrl : String
  sentRequest : RequestOptions
  signCalls : List (RequestOptions × Credentials)
  result : Except ε Json

/-- Shallow embedding of `cognitoFetch(target, options)` (src/lib/index.ts),
parameterized by the external signing capability, the external transport, and
the environment snapshot. -/
def cognitoFetch {ε : Type} (sign : Signer) (send : Transport ε) (env : Env)
    (target : String) (options : CognitoFetchOptions) : Outcome ε :=
  let region := resolveRegion options env
  let accessKeyId := resolveAccessKeyId options env
  let secretAccessKey := resolveSecretAccessKey options env
  let url := buildUrl region
  let requestOptions := buildRequest target region options.body
  let credentials : Credentials :=
    { accessKeyId := accessKeyId, secretAccessKey := secretAccessKey }
  let finalRequest :=
    if options.signed = some true then
      { requestOptions with headers := requestOptions.headers ++ sign requestOptions credentials }
    else
      requestOptions
  let signCalls :=
    if options.signed = some true then [(requestOptions, credentials)] else []
  let result :=
    match send url finalRequest with
    | Except.error e => Except.error e
    | Except.ok res =>
      match res.jsonBody with
      | Except.error e => Except.error e
      | Except.ok value => Except.ok value
  { sentUrl := url, sentRequest := finalRequest, signCalls := signCalls, result := result }

/-! Projection lemmas: each field of the outcome, unfolded once. -/

/-- The URL passed to the transport is the template applied to the resolved
region. -/
theorem cognitoFetch_sentUrl {ε : Type} (sign : Signer) (send : Transport ε)
    (env : Env) (target : String) (options : CognitoFetchOptions) :
    (cognitoFetch sign send env target options).sentUrl
      = buildUrl (resolveRegion options env) := rfl

/-- The signing capability is invoked on the built descriptor and resolved
credentials exactly when `options.signed` is `true`. -/
theorem cognitoFetch_signCalls {ε : Type} (sign : Signer) (send : Transport ε)
    (env : Env) (target : String) (options : CognitoFetchOptions) :
    (cognitoFetch sign send env target options).signCalls
      = if options.signed = some true then
          [(buildRequest target (resolveRegion options env) options.body,
            { accessKeyId := resolveAccessKeyId options env,
              secretAccessKey := resolveSecretAccessKey options env })]
        else [] := rfl

/-- The descriptor passed to the transport: the built descriptor, with the
signer's added headers appended when `options.signed` is `true`. -/
theorem cognitoFetch_sentRequest {ε : Type} (sign : Signer) (send : Transport ε)
    (env : Env) (target : String) (options : CognitoFetchOptions) :
    (cognitoFetch sign send env target options).sentRequest
      = (if options.signed = some true then
          { buildRequest target (resolveRegion options env) options.body with
            headers :=
              (buildRequest target (resolveRegion options env) options.body).headers
                ++ sign (buildRequest target (resolveRegion options env) options.body)
                    { accessKeyId := resolveAccessKeyId options env,
                      secretAccessKey := resolveSecretAccessKey options env } }
        else buildRequest target (resolveRegion options env) options.body) := rfl

/-- The result is whatever the transport and deserialization pipeline yields on
the sent URL and descriptor; nothing is caught, wrapped, or retried. -/
theorem cognitoFetch_result {ε : Type} (sign : Signer) (send : Transport ε)
    (env : Env) (target : String) (options : CognitoFetchOptions) :
    (cognitoFetch sign send env target options).result
      = (match send (cognitoFetch sign send env target options).sentUrl
            (cognitoFetch sign send env target options).sentRequest with
        | Except.error e => Except.error e
        | Except.ok res =>
          match res.jsonBody with
          | Except.error e => Except.error e
          | Except.ok value => Except.ok value) := rfl

/-- A truthy explicit option value short-circuits the fallback chain. -/
theorem jsOr_truthy (a b : JSStr) (h : truthy a = true) : jsOr a b = a := by
  simp [jsOr, h]

/-- A falsy explicit option value yields the fallback. -/
theorem jsOr_falsy (a b : JSStr) (h : truthy a = false) : jsOr a b = b := by
  simp [jsOr, h]

/-- A nonempty string is truthy. -/
theorem truthy_some {s : String} (h : s ≠ "") : truthy (some s) = true := by
  simp [truthy, h]

/-- C1 (amended: the explicit values must be nonempty strings, since
JavaScript `\x7c\x7c` treats the empty string as absent — see C10): when
options supply explicit nonempty region, accessKeyId, and secretAccessKey,
the resolved triple equals the explicit values for every environment state,
the URL passed to the transport is built from the explicit region, and every
invocation of the signing capability receives exactly the explicit
credential pair. -/
theorem c1_explicit_values_override {ε : Type} (sign : Signer) (send : Transport ε)
    (env : Env) (target : String) (options : CognitoFetchOptions)
    (r a k : String)
    (hr : options.region = some r) (hrne : r ≠ "")
    (ha : options.accessKeyId = some a) (hane : a ≠ "")
    (hk : options.secretAccessKey = some k) (hkne : k ≠ "") :
    resolveRegion options env = some r ∧
    resolveAccessKeyId options env = some a ∧
    resolveSecretAccessKey options env = some k ∧
    (cognitoFetch sign send env target options).sentUrl
      = "https://cognito-idp." ++ r ++ ".amazonaws.com/" ∧
    ∀ call ∈ (cognitoFetch sign send env target options).signCalls,
      call.2 = { accessKeyId := some a, secretAccessKey := some k } := by
  have hreg : resolveRegion options env = some r := by
    rw [resolveRegion, hr, jsOr_truthy _ _ (truthy_some hrne),
      jsOr_truthy _ _ (truthy_some hrne)]
  have hakid : resolveAccessKeyId options env = some a := by
    rw [resolveAccessKeyId, ha, jsOr_truthy _ _ (truthy_some hane)]
  have hsk : resolveSecretAccessKey options env = some k := by
    rw [resolveSecretAccessKey, hk, jsOr_truthy _ _ (truthy_some hkne)]
  refine ⟨hreg, hakid, hsk, ?_, ?_⟩
  · rw [cognitoFetch_sentUrl, hreg]
    rfl
  · intro call hcall
    rw [cognitoFetch_signCalls] at hcall
    by_cases h : options.signed = some true
    · simp [h, hakid, hsk] at hcall
      rw [hcall]
    · simp [h] at hcall

/-- C1 counterexample: with an explicit (but empty) region `""` and the
environment variable AWS_REGION set to `"us-west-2"`, the resolved region is
the environment value, not the explicit value. -/
theorem c1_counterexample :
    resolveRegion
      { region := some "", accessKeyId := some "AKIA", secretAccessKey := some "sk",
        body := Json.null }
      { AWS_REGION := some "us-west-2", AWS_DEFAULT_REGION := none,
        AWS_ACCESS_KEY_ID := none, AWS_SECRET_ACCESS_KEY := none }
      = some "us-west-2" ∧ (some "us-west-2" : JSStr) ≠ some "" := by
  constructor
  · rfl
  · decide

/-- C1 witness: the amended theorem applied at a concrete call. -/
theorem c1_witness :
    resolveRegion
      { region := some "eu-west-1", accessKeyId := some "AKIA1", secretAccessKey := some "sk1",
        body := Json.null }
      { AWS_REGION := some "us-west-2", AWS_DEFAULT_REGION := some "us-east-1",
        AWS_ACCESS_KEY_ID := some "AKIA_ENV", AWS_SECRET_ACCESS_KEY := some "sk_env" }
      = some "eu-west-1" := by
  have h := c1_explicit_values_override (ε := Unit) (fun _ _ => []) (fun _ _ => Except.error ())
    { AWS_REGION := some "us-west-2", AWS_DEFAULT_REGION := some "us-east-1",
      AWS_ACCESS_KEY_ID := some "AKIA_ENV", AWS_SECRET_ACCESS_KEY := some "sk_env" }
    "AWSCognitoIdentityProviderService.InitiateAuth"
    { region := some "eu-west-1", accessKeyId := some "AKIA1", secretAccessKey := some "sk1",
      body := Json.null }
    "eu-west-1" "AKIA1" "sk1" rfl (by decide) rfl (by decide) rfl (by decide)
  exact h.1

/-- C2: for every target identifier and every resolved region string r, the URL
constructed and passed to the transport (both the first `fetch` argument and
the descriptor's `url` field) is exactly
"https://cognito-idp." ++ r ++ ".amazonaws.com/", with no other
transformation. -/
theorem c2_url_is_fixed_template {ε : Type} (sign : Signer) (send : Transport ε)
    (env : Env) (target : String) (options : CognitoFetchOptions) (r : String)
    (h : resolveRegion options env = some r) :
    (cognitoFetch sign send env target options).sentUrl
      = "https://cognito-idp." ++ r ++ ".amazonaws.com/" ∧
    (cognitoFetch sign send env target options).sentRequest.url
      = "https://cognito-idp." ++ r ++ ".amazonaws.com/" := by
  constructor
  · rw [cognitoFetch_sentUrl, h]
    rfl
  · rw [cognitoFetch_sentRequest, h]
    by_cases hs : options.signed = some true <;>
      simp [hs, buildRequest, buildUrl, interp]

/-- C2 witness: the theorem applied at a concrete call with region
"eu-west-1". -/
theorem c2_witness :
    (cognitoFetch (ε := Unit) (fun _ _ => []) (fun _ _ => Except.error ())
        { AWS_REGION := none, AWS_DEFAULT_REGION := none,
          AWS_ACCESS_KEY_ID := none, AWS_SECRET_ACCESS_KEY := none }
        "AWSCognitoIdentityProviderService.InitiateAuth"
        { region := some "eu-west-1", body := Json.obj [("A", Json.num 1)] }).sentUrl
      = "https://cognito-idp.eu-west-1.amazonaws.com/" := by
  have h := c2_url_is_fixed_template (ε := Unit) (fun _ _ => []) (fun _ _ => Except.error ())
    { AWS_REGION := none, AWS_DEFAULT_REGION := none,
      AWS_ACCESS_KEY_ID := none, AWS_SECRET_ACCESS_KEY := none }
    "AWSCognitoIdentityProviderService.InitiateAuth"
    { region := some "eu-west-1", body := Json.obj [("A", Json.num 1)] }
    "eu-west-1" rfl
  exact h.1

/-- C3: with no explicit region or credentials, resolution falls back to the
environment in the documented precedence order (region: AWS_REGION, then
AWS_DEFAULT_REGION; each credential: its single environment variable); when
the fallbacks are also absent the resolved value is undefined (`none`), no
error is raised, and the call still proceeds to build and dispatch a URL. -/
theorem c3_env_fallback {ε : Type} (sign : Signer) (send : Transport ε)
    (env : Env) (target : String) (options : CognitoFetchOptions)
    (h1 : options.region = none) (h2 : options.accessKeyId = none)
    (h3 : options.secretAccessKey = none) :
    resolveRegion options env = jsOr env.AWS_REGION env.AWS_DEFAULT_REGION ∧
    resolveAccessKeyId options env = env.AWS_ACCESS_KEY_ID ∧
    resolveSecretAccessKey options env = env.AWS_SECRET_ACCESS_KEY ∧
    (env.AWS_REGION = none → env.AWS_DEFAULT_REGION = none →
      resolveRegion options env = none) ∧
    (env.AWS_ACCESS_KEY_ID = none → resolveAccessKeyId options env = none) ∧
    (env.AWS_SECRET_ACCESS_KEY = none → resolveSecretAccessKey options env = none) ∧
    (cognitoFetch sign send env target options).sentUrl
      = buildUrl (jsOr env.AWS_REGION env.AWS_DEFAULT_REGION) := by
  have hreg : resolveRegion options env = jsOr env.AWS_REGION env.AWS_DEFAULT_REGION := by
    rw [resolveRegion, h1, jsOr_falsy none env.AWS_REGION rfl]
  have hakid : resolveAccessKeyId options env = env.AWS_ACCESS_KEY_ID := by
    rw [resolveAccessKeyId, h2, jsOr_falsy none env.AWS_ACCESS_KEY_ID rfl]
  have hsk : resolveSecretAccessKey options env = env.AWS_SECRET_ACCESS_KEY := by
    rw [resolveSecretAccessKey, h3, jsOr_falsy none env.AWS_SECRET_ACCESS_KEY rfl]
  refine ⟨hreg, hakid, hsk, ?_, ?_, ?_, ?_⟩
  · intro he1 he2
    rw [hreg, he1, he2]
    rfl
  · intro he
    rw [hakid, he]
  · intro he
    rw [hsk, he]
  · rw [cognitoFetch_sentUrl, hreg]

/-- C3 witness: the theorem applied at a concrete call with an empty options
record and an empty environment; all resolved values are undefined. -/
theorem c3_witness :
    resolveRegion { body := Json.null }
        { AWS_REGION := none, AWS_DEFAULT_REGION := none,
          AWS_ACCESS_KEY_ID := none, AWS_SECRET_ACCESS_KEY := none }
      = none := by
  have h := c3_env_fallback (ε := Unit) (fun _ _ => []) (fun _ _ => Except.error ())
    { AWS_REGION := none, AWS_DEFAULT_REGION := none,
      AWS_ACCESS_KEY_ID := none, AWS_SECRET_ACCESS_KEY := none }
    "AWSCognitoIdentityProviderService.InitiateAuth"
    { body := Json.null } rfl rfl rfl
  exact h.2.2.2.1 rfl rfl

/-- C10: a falsy explicit option value (the empty string, or an absent field)
is treated as absent by the logical-or resolution: the resolved value is the
environment fallback, exactly as when the field is not supplied. -/
theorem c10_falsy_explicit_falls_back (env : Env) (options : CognitoFetchOptions)
    (hr : truthy options.region = false)
    (ha : truthy options.accessKeyId = false)
    (hk : truthy options.secretAccessKey = false) :
    resolveRegion options env = jsOr env.AWS_REGION env.AWS_DEFAULT_REGION ∧
    resolveAccessKeyId options env = env.AWS_ACCESS_KEY_ID ∧
    resolveSecretAccessKey options env = env.AWS_SECRET_ACCESS_KEY := by
  refine ⟨?_, ?_, ?_⟩
  · rw [resolveRegion, jsOr_falsy _ _ hr]
  · rw [resolveAccessKeyId, jsOr_falsy _ _ ha]
  · rw [resolveSecretAccessKey, jsOr_falsy _ _ hk]

/-- C10 witness: the theorem applied with all three options explicitly the
empty string; each resolution yields the environment value. -/
theorem c10_witness :
    resolveRegion
        { region := some "", accessKeyId := some "", secretAccessKey := some "",
          body := Json.null }
        { AWS_REGION := some "us-west-2", AWS_DEFAULT_REGION := none,
          AWS_ACCESS_KEY_ID := some "AKIA_ENV", AWS_SECRET_ACCESS_KEY := some "sk_env" }
      = some "us-west-2" := by
  have h := c10_falsy_explicit_falls_back
    { AWS_REGION := some "us-west-2", AWS_DEFAULT_REGION := none,
      AWS_ACCESS_KEY_ID := some "AKIA_ENV", AWS_SECRET_ACCESS_KEY := some "sk_env" }
    { region := some "", accessKeyId := some "", secretAccessKey := some "",
      body := Json.null }
    (by decide) (by decide) (by decide)
  exact h.1

/-- C4: the descriptor's body is the compact JSON serialization of
`options.body`, both in the descriptor passed to the transport and in the
descriptor received by every invocation of the signing capability — the body
is serialized before the signing step, so signing operates over the exact
transmitted text. -/
theorem c4_body_serialized_before_signing {ε : Type} (sign : Signer)
    (send : Transport ε) (env : Env) (target : String)
    (options : CognitoFetchOptions) :
    (cognitoFetch sign send env target options).sentRequest.body
      = Json.stringify options.body ∧
    ∀ call ∈ (cognitoFetch sign send env target options).signCalls,
      call.1.body = Json.stringify options.body := by
  constructor
  · rw [cognitoFetch_sentRequest]
    by_cases h : options.signed = some true <;> simp [h, buildRequest]
  · intro call hcall
    rw [cognitoFetch_signCalls] at hcall
    by_cases h : options.signed = some true
    · simp [h] at hcall
      rw [hcall]
      rfl
    · simp [h] at hcall

/-- C4 witness: a concrete signed call; the signer receives the descriptor with
the serialized body text. -/
theorem c4_witness :
    (cognitoFetch (ε := Unit) (fun _ _ => [("Authorization", "AWS4-HMAC-SHA256")])
        (fun _ _ => Except.error ())
        { AWS_REGION := none, AWS_DEFAULT_REGION := none,
          AWS_ACCESS_KEY_ID := none, AWS_SECRET_ACCESS_KEY := none }
        "AWSCognitoIdentityProviderService.InitiateAuth"
        { region := some "us-east-1",
          body := Json.obj [("ClientId", Json.str "test-client")],
          signed := some true }).sentRequest.body
      = "\x7b\"ClientId\":\"test-client\"\x7d" := by
  have h := c4_body_serialized_before_signing (ε := Unit)
    (fun _ _ => [("Authorization", "AWS4-HMAC-SHA256")]) (fun _ _ => Except.error ())
    { AWS_REGION := none, AWS_DEFAULT_REGION := none,
      AWS_ACCESS_KEY_ID := none, AWS_SECRET_ACCESS_KEY := none }
    "AWSCognitoIdentityProviderService.InitiateAuth"
    { region := some "us-east-1",
      body := Json.obj [("ClientId", Json.str "test-client")],
      signed := some true }
  rw [h.1]
  rfl

/-- C5: when `options.signed` is false or absent, the signing capability is
never invoked and the dispatched descriptor's headers are exactly the two
headers set by construction — in particular no authorization-related header —
whatever credentials options or the environment hold. -/
theorem c5_unsigned_never_signs {ε : Type} (sign : Signer) (send : Transport ε)
    (env : Env) (target : String) (options : CognitoFetchOptions)
    (h : options.signed ≠ some true) :
    (cognitoFetch sign send env target options).signCalls = [] ∧
    (cognitoFetch sign send env target options).sentRequest.headers
      = [("x-amz-target", target), ("content-type", "application/x-amz-json-1.1")] := by
  constructor
  · rw [cognitoFetch_signCalls]
    simp [h]
  · rw [cognitoFetch_sentRequest]
    simp [h, buildRequest]

/-- C5 witness: a concrete unsigned call with credentials present everywhere;
no sign invocation, exactly the two constructed headers. -/
theorem c5_witness :
    (cognitoFetch (ε := Unit) (fun _ _ => [("Authorization", "AWS4-HMAC-SHA256")])
        (fun _ _ => Except.error ())
        { AWS_REGION := some "us-west-2", AWS_DEFAULT_REGION := some "us-east-1",
          AWS_ACCESS_KEY_ID := some "AKIA_ENV", AWS_SECRET_ACCESS_KEY := some "sk_env" }
        "AWSCognitoIdentityProviderService.InitiateAuth"
        { region := some "us-east-1", accessKeyId := some "AKIA123",
          secretAccessKey := some "secret123", body := Json.null,
          signed := some false }).signCalls = [] := by
  have h := c5_unsigned_never_signs (ε := Unit)
    (fun _ _ => [("Authorization", "AWS4-HMAC-SHA256")]) (fun _ _ => Except.error ())
    { AWS_REGION := some "us-west-2", AWS_DEFAULT_REGION := some "us-east-1",
      AWS_ACCESS_KEY_ID := some "AKIA_ENV", AWS_SECRET_ACCESS_KEY := some "sk_env" }
    "AWSCognitoIdentityProviderService.InitiateAuth"
    { region := some "us-east-1", accessKeyId := some "AKIA123",
      secretAccessKey := some "secret123", body := Json.null,
      signed := some false }
    (by decide)
  exact h.1

/-- C6: when `options.signed` is true, the signing capability is invoked
exactly once, on the built descriptor and the resolved credential pair, and
the descriptor handed to the transport carries the two constructed headers
followed by whatever headers the signing capability added. -/
theorem c6_signed_invokes_once {ε : Type} (sign : Signer) (send : Transport ε)
    (env : Env) (target : String) (options : CognitoFetchOptions)
    (h : options.signed = some true) :
    (cognitoFetch sign send env target options).signCalls
      = [(buildRequest target (resolveRegion options env) options.body,
          { accessKeyId := resolveAccessKeyId options env,
            secretAccessKey := resolveSecretAccessKey options env })] ∧
    (cognitoFetch sign send env target options).sentRequest.headers
      = [("x-amz-target", target), ("content-type", "application/x-amz-json-1.1")]
          ++ sign (buildRequest target (resolveRegion options env) options.body)
              { accessKeyId := resolveAccessKeyId options env,
                secretAccessKey := resolveSecretAccessKey options env } := by
  constructor
  · rw [cognitoFetch_signCalls]
    simp [h]
  · rw [cognitoFetch_sentRequest]
    simp [h, buildRequest]

/-- C6 witness: a concrete signed call with a signer that adds one
authorization header; one sign invocation, and the sent headers are the two
constructed ones followed by the added one. -/
theorem c6_witness :
    (cognitoFetch (ε := Unit) (fun _ _ => [("Authorization", "AWS4-HMAC-SHA256 sig")])
        (fun _ _ => Except.error ())
        { AWS_REGION := none, AWS_DEFAULT_REGION := none,
          AWS_ACCESS_KEY_ID := none, AWS_SECRET_ACCESS_KEY := none }
        "AWSCognitoIdentityProviderService.AdminGetUser"
        { region := some "us-east-1", accessKeyId := some "AKIA123",
          secretAccessKey := some "secret123", body := Json.null,
          signed := some true }).sentRequest.headers
      = [("x-amz-target", "AWSCognitoIdentityProviderService.AdminGetUser"),
         ("content-type", "application/x-amz-json-1.1"),
         ("Authorization", "AWS4-HMAC-SHA256 sig")] := by
  have h := c6_signed_invokes_once (ε := Unit)
    (fun _ _ => [("Authorization", "AWS4-HMAC-SHA256 sig")]) (fun _ _ => Except.error ())
    { AWS_REGION := none, AWS_DEFAULT_REGION := none,
      AWS_ACCESS_KEY_ID := none, AWS_SECRET_ACCESS_KEY := none }
    "AWSCognitoIdentityProviderService.AdminGetUser"
    { region := some "us-east-1", accessKeyId := some "AKIA123",
      secretAccessKey := some "secret123", body := Json.null,
      signed := some true }
    rfl
  rw [h.2]
  rfl

/-- C7: whenever the transport resolves to a response whose body deserializes
to a value, the call's result is exactly that value, whatever the status code
(the response, status included, is arbitrary): an error-range response with an
error-shaped body is returned as the successful result. -/
theorem c7_result_is_deserialized_body {ε : Type} (sign : Signer)
    (send : Transport ε) (env : Env) (target : String)
    (options : CognitoFetchOptions) (res : Response ε) (v : Json)
    (hsend : send (cognitoFetch sign send env target options).sentUrl
        (cognitoFetch sign send env target options).sentRequest = Except.ok res)
    (hjson : res.jsonBody = Except.ok v) :
    (cognitoFetch sign send env target options).result = Except.ok v := by
  rw [cognitoFetch_result, hsend]
  simp [hjson]

/-- C7 witness: a transport returning status 400 with an error-shaped JSON
body; the call's result is that body as a successful value. -/
theorem c7_witness :
    (cognitoFetch (ε := Unit) (fun _ _ => [])
        (fun _ _ => Except.ok
          { status := 400,
            jsonBody := Except.ok (Json.obj
              [("__type", Json.str "NotAuthorizedException"),
               ("message", Json.str "Invalid credentials")]) })
        { AWS_REGION := none, AWS_DEFAULT_REGION := none,
          AWS_ACCESS_KEY_ID := none, AWS_SECRET_ACCESS_KEY := none }
        "AWSCognitoIdentityProviderService.InitiateAuth"
        { region := some "us-east-1", body := Json.null }).result
      = Except.ok (Json.obj
          [("__type", Json.str "NotAuthorizedException"),
           ("message", Json.str "Invalid credentials")]) := by
  exact c7_result_is_deserialized_body (ε := Unit) (fun _ _ => [])
    (fun _ _ => Except.ok
      { status := 400,
        jsonBody := Except.ok (Json.obj
          [("__type", Json.str "NotAuthorizedException"),
           ("message", Json.str "Invalid credentials")]) })
    { AWS_REGION := none, AWS_DEFAULT_REGION := none,
      AWS_ACCESS_KEY_ID := none, AWS_SECRET_ACCESS_KEY := none }
    "AWSCognitoIdentityProviderService.InitiateAuth"
    { region := some "us-east-1", body := Json.null }
    { status := 400,
      jsonBody := Except.ok (Json.obj
        [("__type", Json.str "NotAuthorizedException"),
         ("message", Json.str "Invalid credentials")]) }
    (Json.obj
      [("__type", Json.str "NotAuthorizedException"),
       ("message", Json.str "Invalid credentials")])
    rfl rfl

/-- C8: a transport rejection, or a body-deserialization rejection, surfaces as
the call's result with the very same error value — nothing is caught, wrapped,
retried, or recovered. -/
theorem c8_failures_propagate_unmodified {ε : Type} (sign : Signer)
    (send : Transport ε) (env : Env) (target : String)
    (options : CognitoFetchOptions) (e : ε) :
    (send (cognitoFetch sign send env target options).sentUrl
        (cognitoFetch sign send env target options).sentRequest = Except.error e →
      (cognitoFetch sign send env target options).result = Except.error e) ∧
    (∀ res : Response ε,
      send (cognitoFetch sign send env target options).sentUrl
          (cognitoFetch sign send env target options).sentRequest = Except.ok res →
      res.jsonBody = Except.error e →
      (cognitoFetch sign send env target options).result = Except.error e) := by
  constructor
  · intro hsend
    rw [cognitoFetch_result, hsend]
  · intro res hsend hjson
    rw [cognitoFetch_result, hsend]
    simp [hjson]

/-- C8 witness: the theorem applied to a transport that rejects with
"Network error", and to a transport whose body deserialization rejects with
"Unexpected token in JSON"; each error comes back unmodified. -/
theorem c8_witness :
    (cognitoFetch (ε := String) (fun _ _ => []) (fun _ _ => Except.error "Network error")
        { AWS_REGION := none, AWS_DEFAULT_REGION := none,
          AWS_ACCESS_KEY_ID := none, AWS_SECRET_ACCESS_KEY := none }
        "AWSCognitoIdentityProviderService.InitiateAuth"
        { region := some "us-east-1", body := Json.null }).result
      = Except.error "Network error" ∧
    (cognitoFetch (ε := String) (fun _ _ => [])
        (fun _ _ => Except.ok
          { status := 200, jsonBody := Except.error "Unexpected token in JSON" })
        { AWS_REGION := none, AWS_DEFAULT_REGION := none,
          AWS_ACCESS_KEY_ID := none, AWS_SECRET_ACCESS_KEY := none }
        "AWSCognitoIdentityProviderService.InitiateAuth"
        { region := some "us-east-1", body := Json.null }).result
      = Except.error "Unexpected token in JSON" := by
  constructor
  · exact (c8_failures_propagate_unmodified (ε := String) (fun _ _ => [])
      (fun _ _ => Except.error "Network error")
      { AWS_REGION := none, AWS_DEFAULT_REGION := none,
        AWS_ACCESS_KEY_ID := none, AWS_SECRET_ACCESS_KEY := none }
      "AWSCognitoIdentityProviderService.InitiateAuth"
      { region := some "us-east-1", body := Json.null }
      "Network error").1 rfl
  · exact (c8_failures_propagate_unmodified (ε := String) (fun _ _ => [])
      (fun _ _ => Except.ok
        { status := 200, jsonBody := Except.error "Unexpected token in JSON" })
      { AWS_REGION := none, AWS_DEFAULT_REGION := none,
        AWS_ACCESS_KEY_ID := none, AWS_SECRET_ACCESS_KEY := none }
      "AWSCognitoIdentityProviderService.InitiateAuth"
      { region := some "us-east-1", body := Json.null }
      "Unexpected token in JSON").2
      { status := 200, jsonBody := Except.error "Unexpected token in JSON" } rfl rfl

/-- C9: when the region resolves to undefined, no validation error is raised
and the URL constructed and dispatched contains the literal text "undefined"
at the region substitution point, in both the `fetch` URL argument and the
descriptor's `url` field. -/
theorem c9_undefined_region_literal {ε : Type} (sign : Signer)
    (send : Transport ε) (env : Env) (target : String)
    (options : CognitoFetchOptions)
    (h : resolveRegion options env = none) :
    (cognitoFetch sign send env target options).sentUrl
      = "https://cognito-idp.undefined.amazonaws.com/" ∧
    (cognitoFetch sign send env target options).sentRequest.url
      = "https://cognito-idp.undefined.amazonaws.com/" := by
  constructor
  · rw [cognitoFetch_sentUrl, h]
    rfl
  · rw [cognitoFetch_sentRequest, h]
    by_cases hs : options.signed = some true <;>
      simp [hs, buildRequest, buildUrl, interp]

/-- C9 witness: no explicit region and an empty environment; the dispatched
URL is "https://cognito-idp.undefined.amazonaws.com/". -/
theorem c9_witness :
    (cognitoFetch (ε := Unit) (fun _ _ => []) (fun _ _ => Except.error ())
        { AWS_REGION := none, AWS_DEFAULT_REGION := none,
          AWS_ACCESS_KEY_ID := none, AWS_SECRET_ACCESS_KEY := none }
        "AWSCognitoIdentityProviderService.InitiateAuth"
        { body := Json.null }).sentUrl
      = "https://cognito-idp.undefined.amazonaws.com/" := by
  have h := c9_undefined_region_literal (ε := Unit) (fun _ _ => [])
    (fun _ _ => Except.error ())
    { AWS_REGION := none, AWS_DEFAULT_REGION := none,
      AWS_ACCESS_KEY_ID := none, AWS_SECRET_ACCESS_KEY := none }
    "AWSCognitoIdentityProviderService.InitiateAuth"
    { body := Json.null } rfl
  exact h.1

end CognitoFetch
